import Mathlib

/-!
Verification development for the career-guidance service.

The Python sources under `src/` are shallowly embedded below:
* `models.py`        → the structures `CareerQuery`, `Roadmap`, `RoadmapStep`,
                       `CompanyData`, `MarketTrend`, `SkillRequirement`, …
* `web_scraper.py`   → `getRoleSkills`, `scrapeMarketTrends`,
                       `scrapeGlassdoorCompanyData`, `getCompanyData`
* `roadmap_generator.py` → `generateRoadmap` and the static catalogs
* `marketing_consultant_roadmap.py` → `marketingGetRoadmapAsModel`
* `career_agent.py`  → `generateRecommendations`, `processQueryRoadmap`

Modelling conventions:
* Python `datetime` values are modelled as `Int` seconds; `timedelta.days`
  is floor division by 86400 (`daysBetween`).
* Python `float` salaries are modelled as `ℚ`.
* Python truthiness of an optional string (`if s:`) is `pyTruthy`:
  both `None` and the empty string are falsy.
* Python string containment (`"a" in s`) is `strContains` which is
  `List.IsInfix` on the character lists; `str.lower()` is `lowerStr`
  (ASCII lowering, which agrees with Python on all data in the program);
  single-character `str.replace` is `replaceChar`.
* The SQLAlchemy record store is modelled as a list of `CompanyRecord`
  in insertion order; `filter(...ilike...).first()` is `List.find?` with a
  case-insensitive containment predicate; the JSON round-trip of
  `required_skills` is modelled as the identity on `List String`.
-/

/-- ASCII lower-casing of one character, as Python `str.lower` does on
the ASCII range (all role keys, field names and specializations in the
program are ASCII). -/
def lowerChar (c : Char) : Char :=
  if 'A' ≤ c ∧ c ≤ 'Z' then Char.ofNat (c.toNat + 32) else c

/-- Python `s.lower()`. -/
def lowerStr (s : String) : String :=
  String.mk (s.data.map lowerChar)

/-- Python `s.replace(pat, rep)` for a one-character pattern. -/
def replaceChar (s : String) (pat rep : Char) : String :=
  String.mk (s.data.map (fun c => if c = pat then rep else c))

/-- Python `needle in hay` (substring containment). -/
def strContains (hay needle : String) : Prop :=
  needle.data <:+: hay.data

instance (hay needle : String) : Decidable (strContains hay needle) :=
  List.decidableInfix needle.data hay.data

/-- Python truthiness of an optional string: `None` and `""` are falsy. -/
def pyTruthy (o : Option String) : Prop :=
  o.getD "" ≠ ""

instance (o : Option String) : Decidable (pyTruthy o) := by
  unfold pyTruthy; infer_instance

/-- Python `specialization or default` on an optional string. -/
def pyOrStr (o : Option String) (dflt : String) : String :=
  if pyTruthy o then o.getD "" else dflt

/-- `timedelta.days` of `now - earlier`, both in seconds: floor division
by 86400 (Python `timedelta.days` floors toward minus infinity). -/
def daysBetween (now earlier : Int) : Int :=
  (now - earlier).fdiv 86400

/-! ## Data model (`models.py`) -/

/-- `FieldType` enum from `models.py`. -/
inductive FieldType where
  | tech
  | mba
deriving DecidableEq

/-- The `.value` of a `FieldType` member. -/
def FieldType.value : FieldType → String
  | .tech => "tech"
  | .mba => "mba"

/-- `ExperienceLevel` enum from `models.py`. -/
inductive ExperienceLevel where
  | fresh_graduate
  | entry_level
  | mid_level
  | senior_level
deriving DecidableEq

/-- The `.value` of an `ExperienceLevel` member. -/
def ExperienceLevel.value : ExperienceLevel → String
  | .fresh_graduate => "fresh_graduate"
  | .entry_level => "entry_level"
  | .mid_level => "mid_level"
  | .senior_level => "senior_level"

/-- `CareerQuery` from `models.py`. -/
structure CareerQuery where
  field : FieldType
  specialization : Option String
  experience_level : ExperienceLevel
  target_companies : Option (List String)
  target_roles : Option (List String)
  skills : Option (List String)
  location_preference : Option String
  query_text : String
deriving DecidableEq

/-- `RoadmapStep` from `models.py`. -/
structure RoadmapStep where
  title : String
  description : String
  duration : String
  resources : List String
  prerequisites : List String
  difficulty : String
deriving DecidableEq

/-- `Roadmap` from `models.py`. -/
structure Roadmap where
  field : String
  specialization : String
  total_duration : String
  steps : List RoadmapStep
  skills_covered : List String
deriving DecidableEq

/-- `CompanyData` from `models.py`; `last_updated` in seconds,
`average_salary` as `ℚ` (Python float). -/
structure CompanyData where
  name : String
  hiring_status : String
  open_positions : Int
  average_salary : Option ℚ
  required_skills : List String
  company_size : String
  industry : String
  last_updated : Int
deriving DecidableEq

/-- `MarketTrend` from `models.py`. -/
structure MarketTrend where
  trend_type : String
  description : String
  impact : String
  timeframe : String
  source : String
deriving DecidableEq

/-- `SkillRequirement` from `models.py`. -/
structure SkillRequirement where
  role : String
  essential_skills : List String
  nice_to_have_skills : List String
  experience_required : String
  certifications : List String
deriving DecidableEq

/-! ## Skill catalog (`web_scraper.py`, `get_role_skills`) -/

/-- The `skill_mapping` dict of `get_role_skills`, as an association
list in Python dict insertion (= iteration) order. -/
def skillMapping : List (String × SkillRequirement) :=
  [("software_engineer",
    ⟨"Software Engineer",
     ["Programming Languages", "Data Structures", "Algorithms", "Version Control"],
     ["Cloud Computing", "DevOps", "Machine Learning", "Mobile Development"],
     "0-2 years",
     ["AWS Certified Developer", "Google Cloud Professional"]⟩),
   ("data_scientist",
    ⟨"Data Scientist",
     ["Python", "R", "SQL", "Machine Learning", "Statistics"],
     ["Deep Learning", "Big Data", "Cloud Computing", "Data Visualization"],
     "1-3 years",
     ["AWS Machine Learning", "Google Data Analytics"]⟩),
   ("product_manager",
    ⟨"Product Manager",
     ["Product Strategy", "User Research", "Analytics", "Project Management"],
     ["Technical Background", "Design Thinking", "Agile/Scrum", "Business Analysis"],
     "2-5 years",
     ["PMP", "Certified Scrum Product Owner"]⟩),
   ("consultant",
    ⟨"Management Consultant",
     ["Problem-Solving & Analytical Thinking", "Strategic Thinking", "Exceptional Communication Skills", "Data Analysis Proficiency", "Interpersonal Skills"],
     ["Project Management Expertise", "Adaptability and Flexibility", "Business Acumen", "SQL", "Python", "Tableau", "Advanced Excel", "Power BI"],
     "2-3 years (Entry-level), 5+ years (Senior)",
     ["Certified Management Consultant (CMC)", "Financial Modeling Certification", "Business Strategy (Wharton)", "Consulting Foundations (LinkedIn Learning)"]⟩),
   ("marketing",
    ⟨"Marketing Consultant",
     ["Marketing Expertise", "Consulting Tools", "Data Analytics", "Problem-solving", "Client Communication", "Storytelling"],
     ["Brand Management", "Digital Marketing", "Customer Insights", "SWOT Analysis", "4Ps Framework", "STP Analysis", "Customer Journey Mapping"],
     "MBA Final Year",
     ["Google Digital Marketing", "HubSpot Content Marketing", "LinkedIn Learning Marketing Strategy", "Coursera Marketing Analytics by Wharton"]⟩)]

/-- `role.lower().replace(" ", "_").replace("-", "_")` from
`get_role_skills`. -/
def normalizeRole (role : String) : String :=
  replaceChar (replaceChar (lowerStr role) ' ' '_') '-' '_'

/-- Resolution of a normalized role key against `skill_mapping`:
exact dict lookup first, then the first entry (in iteration order) whose
key is a substring of the normalized role or vice versa. -/
def resolveRoleKey (key : String) : Option SkillRequirement :=
  match skillMapping.find? (fun p => p.1 == key) with
  | some p => some p.2
  | none =>
    (skillMapping.find? (fun p =>
      decide (strContains key p.1) || decide (strContains p.1 key))).map (·.2)

/-- `get_role_skills` from `web_scraper.py`.  The mock body cannot raise,
so the surrounding `try`/`except` never yields `None`; the function is
total.  The default branch embeds the original `role` string. -/
def getRoleSkills (role : String) : SkillRequirement :=
  match resolveRoleKey (normalizeRole role) with
  | some sr => sr
  | none =>
    ⟨role,
     ["Communication", "Problem Solving", "Teamwork"],
     ["Leadership", "Analytics", "Project Management"],
     "Varies",
     []⟩

/-! ## Market trends (`web_scraper.py`, `scrape_market_trends`) -/

/-- First sample trend (`AI/ML Growth`, impact `High`). -/
def aiTrend : MarketTrend :=
  ⟨"AI/ML Growth",
   "Artificial Intelligence and Machine Learning roles are growing at 25% annually with high demand for specialized skills",
   "High", "2024-2025", "LinkedIn Jobs Report 2024"⟩

/-- Second sample trend (`Remote Work`, impact `Medium`). -/
def remoteTrend : MarketTrend :=
  ⟨"Remote Work",
   "Remote work opportunities have increased by 40% post-pandemic, with hybrid models becoming standard",
   "Medium", "2024", "Glassdoor Survey 2024"⟩

/-- Third sample trend (`Sustainability Focus`, impact `Medium`). -/
def sustainabilityTrend : MarketTrend :=
  ⟨"Sustainability Focus",
   "Companies are increasingly hiring for ESG and sustainability roles across all industries",
   "Medium", "2024-2026", "McKinsey Global Institute"⟩

/-- Fourth sample trend (`Cybersecurity Demand`, impact `High`). -/
def cyberTrend : MarketTrend :=
  ⟨"Cybersecurity Demand",
   "Cybersecurity roles are in high demand with 3.5 million unfilled positions globally",
   "High", "2024-2025", "Cybersecurity Ventures"⟩

/-- `scrape_market_trends`: ignores all state and returns the fixed
`sample_trends` list (the body cannot raise, so the `except` branch that
would return a shorter list is dead). -/
def scrapeMarketTrends : List MarketTrend :=
  [aiTrend, remoteTrend, sustainabilityTrend, cyberTrend]

/-! ## Roadmap catalogs (`roadmap_generator.py`) -/

/-- One value of the `tech_roadmaps` / `mba_roadmaps` dicts:
total duration, steps and skills covered. -/
structure RoadmapData where
  total_duration : String
  steps : List RoadmapStep
  skills_covered : List String
deriving DecidableEq

/-- `tech_roadmaps["frontend"]`. -/
def techFrontendData : RoadmapData :=
  ⟨"6-12 months",
   [⟨"HTML & CSS Fundamentals",
     "Learn the basics of web structure and styling",
     "2-3 weeks", ["MDN Web Docs", "freeCodeCamp", "CSS-Tricks"], [], "Beginner"⟩,
    ⟨"JavaScript Basics",
     "Master JavaScript fundamentals and ES6+ features",
     "4-6 weeks", ["JavaScript.info", "Eloquent JavaScript", "MDN JavaScript Guide"],
     ["HTML & CSS"], "Beginner"⟩,
    ⟨"React/Vue/Angular",
     "Choose and master a modern frontend framework",
     "6-8 weeks", ["React Official Docs", "Vue.js Guide", "Angular Tutorial"],
     ["JavaScript"], "Intermediate"⟩,
    ⟨"State Management",
     "Learn Redux, Vuex, or NgRx for complex applications",
     "3-4 weeks", ["Redux Toolkit", "Vuex Guide", "NgRx Documentation"],
     ["React/Vue/Angular"], "Intermediate"⟩,
    ⟨"Testing & Deployment",
     "Learn testing frameworks and deployment strategies",
     "3-4 weeks", ["Jest", "Cypress", "Vercel", "Netlify"],
     ["Frontend Framework"], "Intermediate"⟩],
   ["HTML", "CSS", "JavaScript", "React", "Testing", "Git", "Responsive Design"]⟩

/-- `tech_roadmaps["backend"]`. -/
def techBackendData : RoadmapData :=
  ⟨"8-12 months",
   [⟨"Programming Language",
     "Master Python, Java, or Node.js for backend development",
     "6-8 weeks", ["Python.org", "Oracle Java Docs", "Node.js Guide"], [], "Beginner"⟩,
    ⟨"Database Management",
     "Learn SQL and NoSQL databases",
     "4-6 weeks", ["PostgreSQL Docs", "MongoDB University", "SQLBolt"],
     ["Programming Language"], "Beginner"⟩,
    ⟨"API Development",
     "Build RESTful APIs and GraphQL endpoints",
     "4-6 weeks", ["FastAPI", "Spring Boot", "Express.js"],
     ["Programming Language", "Database"], "Intermediate"⟩,
    ⟨"Authentication & Security",
     "Implement secure authentication and authorization",
     "3-4 weeks", ["JWT.io", "OAuth 2.0", "OWASP Security"],
     ["API Development"], "Intermediate"⟩,
    ⟨"Cloud & DevOps",
     "Deploy applications using cloud platforms",
     "4-6 weeks", ["AWS", "Docker", "Kubernetes", "CI/CD"],
     ["API Development"], "Advanced"⟩],
   ["Python/Java/Node.js", "SQL", "REST APIs", "Authentication", "Cloud Computing", "Docker"]⟩

/-- `tech_roadmaps["data_science"]`. -/
def techDataScienceData : RoadmapData :=
  ⟨"10-14 months",
   [⟨"Python & Statistics",
     "Learn Python programming and statistical concepts",
     "6-8 weeks", ["Python.org", "Statistics.com", "Khan Academy"], [], "Beginner"⟩,
    ⟨"Data Manipulation",
     "Master pandas, NumPy, and data cleaning techniques",
     "4-6 weeks", ["Pandas Docs", "NumPy Guide", "DataCamp"], ["Python"], "Beginner"⟩,
    ⟨"Machine Learning",
     "Learn ML algorithms and scikit-learn",
     "6-8 weeks", ["Scikit-learn", "Coursera ML Course", "Kaggle Learn"],
     ["Data Manipulation"], "Intermediate"⟩,
    ⟨"Deep Learning",
     "Explore neural networks and TensorFlow/PyTorch",
     "6-8 weeks", ["TensorFlow", "PyTorch", "Deep Learning Specialization"],
     ["Machine Learning"], "Advanced"⟩,
    ⟨"Data Visualization",
     "Create compelling visualizations and dashboards",
     "3-4 weeks", ["Matplotlib", "Seaborn", "Plotly", "Tableau"],
     ["Data Manipulation"], "Intermediate"⟩],
   ["Python", "Statistics", "Machine Learning", "Deep Learning", "Data Visualization", "SQL"]⟩

/-- `tech_roadmaps["devops"]`. -/
def techDevopsData : RoadmapData :=
  ⟨"8-12 months",
   [⟨"Linux & Command Line",
     "Master Linux administration and shell scripting",
     "4-6 weeks", ["Linux Academy", "Bash Guide", "Linux Documentation"], [], "Beginner"⟩,
    ⟨"Version Control",
     "Learn Git and GitHub/GitLab workflows",
     "2-3 weeks", ["Git Documentation", "GitHub Learning Lab", "Atlassian Git Tutorials"],
     [], "Beginner"⟩,
    ⟨"Containerization",
     "Master Docker and container orchestration",
     "4-6 weeks", ["Docker Docs", "Kubernetes.io", "Docker Compose"], ["Linux"], "Intermediate"⟩,
    ⟨"Cloud Platforms",
     "Learn AWS, Azure, or GCP services",
     "6-8 weeks", ["AWS Training", "Azure Learn", "Google Cloud Training"],
     ["Containerization"], "Intermediate"⟩,
    ⟨"CI/CD & Monitoring",
     "Implement continuous integration and monitoring",
     "4-6 weeks", ["Jenkins", "GitLab CI", "Prometheus", "Grafana"],
     ["Cloud Platforms"], "Advanced"⟩],
   ["Linux", "Docker", "Kubernetes", "AWS/Azure/GCP", "CI/CD", "Monitoring"]⟩

/-- The `tech_roadmaps` dict in insertion order. -/
def techRoadmaps : List (String × RoadmapData) :=
  [("frontend", techFrontendData),
   ("backend", techBackendData),
   ("data_science", techDataScienceData),
   ("devops", techDevopsData)]

/-- `mba_roadmaps["consulting"]`. -/
def mbaConsultingData : RoadmapData :=
  ⟨"12-18 months",
   [⟨"Problem Solving & Structured Thinking",
     "Master MECE frameworks, hypothesis-driven thinking, and issue prioritization",
     "6-8 weeks", ["Case in Point", "Victor Cheng", "MECE Frameworks", "80/20 Rule"],
     [], "Beginner"⟩,
    ⟨"Analytical & Quantitative Skills",
     "Develop mental math, data analysis, and business modeling capabilities",
     "6-8 weeks", ["Excel Mastery", "Quick Mental Math", "Business Math", "Chart Interpretation"],
     ["Problem Solving"], "Intermediate"⟩,
    ⟨"Communication & Storytelling",
     "Build executive communication, presentation, and storytelling skills",
     "4-6 weeks", ["PREP/STAR Method", "PowerPoint Skills", "Executive Writing", "Data Storytelling"],
     ["Analytical Skills"], "Intermediate"⟩,
    ⟨"Case Interview Mastery",
     "Practice case interviews with frameworks and real scenarios",
     "8-10 weeks", ["Case in Point", "PrepLounge", "CaseCoach", "RocketBlocks", "Crafting Cases"],
     ["Communication Skills"], "Advanced"⟩,
    ⟨"Business & Industry Knowledge",
     "Develop deep understanding of key industries and market trends",
     "4-6 weeks", ["McKinsey Insights", "Bain Insights", "BCG Perspectives", "HBR", "The Economist"],
     ["Case Interview Prep"], "Intermediate"⟩,
    ⟨"Networking & Applications",
     "Build professional network and apply to consulting firms",
     "Ongoing", ["LinkedIn", "Alumni Networks", "Company Events", "Behavioral Interview Prep"],
     ["Industry Knowledge"], "Advanced"⟩],
   ["Problem Solving", "Analytical Skills", "Communication", "Case Interview", "Business Knowledge", "Leadership"]⟩

/-- `mba_roadmaps["finance"]`. -/
def mbaFinanceData : RoadmapData :=
  ⟨"10-14 months",
   [⟨"Financial Fundamentals",
     "Learn accounting, finance, and valuation principles",
     "8-10 weeks", ["CFA Institute", "Investopedia", "Financial Modeling Prep"], [], "Beginner"⟩,
    ⟨"Financial Modeling",
     "Master Excel and build financial models",
     "6-8 weeks", ["Wall Street Prep", "Corporate Finance Institute", "Excel Skills"],
     ["Financial Fundamentals"], "Intermediate"⟩,
    ⟨"Investment Banking Prep",
     "Prepare for investment banking interviews and technical questions",
     "6-8 weeks", ["Breaking Into Wall Street", "Vault Guides", "Technical Interview Prep"],
     ["Financial Modeling"], "Advanced"⟩,
    ⟨"Networking & Applications",
     "Connect with finance professionals and apply to roles",
     "Ongoing", ["LinkedIn", "Finance Clubs", "Industry Events"],
     ["Investment Banking Prep"], "Advanced"⟩],
   ["Financial Modeling", "Valuation", "Excel", "PowerPoint", "Industry Analysis"]⟩

/-- `mba_roadmaps["marketing_consultant"]` (the generic catalog entry,
distinct from the authored override used for exact `marketing`). -/
def mbaMarketingConsultantData : RoadmapData :=
  ⟨"Final MBA Year (8 months)",
   [⟨"Refine Focus + Skills (Oct-Nov)",
     "Identify marketing consulting niche and build foundational skills",
     "2 months", ["Strategic Marketing Electives", "Brand Management Courses", "CV & LinkedIn Updates"],
     [], "Beginner"⟩,
    ⟨"Build Consulting Skills (Nov-Dec)",
     "Master case interviews and consulting frameworks",
     "2 months", ["Case in Point", "Crack the Marketing Case", "Consulting Clubs", "Mock Interviews"],
     ["Marketing Fundamentals"], "Intermediate"⟩,
    ⟨"Portfolio Building (Dec-Jan)",
     "Create marketing consulting portfolio and case studies",
     "2 months", ["Personal Blog", "LinkedIn Posts", "Live Projects", "Freelance Consulting"],
     ["Consulting Skills"], "Intermediate"⟩,
    ⟨"Apply for Roles (Jan-Feb)",
     "Target consulting firms and marketing strategy roles",
     "2 months", ["Bain", "McKinsey", "ZS", "Nielsen", "Boutique Firms", "STAR Stories"],
     ["Portfolio"], "Advanced"⟩,
    ⟨"Networking + Mentorship (Feb-Apr)",
     "Build professional network and seek mentorship",
     "2 months", ["LinkedIn Alumni", "Informational Interviews", "Referrals", "Project Shadowing"],
     ["Applications"], "Advanced"⟩,
    ⟨"Final Push (Apr-Jun)",
     "Final interview preparation and job offer finalization",
     "2 months", ["Interview Prep", "Flexible Role Options", "Offer Negotiation"],
     ["Networking"], "Advanced"⟩],
   ["Marketing Expertise", "Consulting Tools", "Data Analytics", "Problem-solving", "Client Communication", "Storytelling"]⟩

/-- `mba_roadmaps["operations"]`. -/
def mbaOperationsData : RoadmapData :=
  ⟨"10-14 months",
   [⟨"Operations Fundamentals",
     "Learn supply chain, operations management, and process optimization",
     "8-10 weeks", ["APICS", "MIT Operations Course", "Lean Six Sigma"], [], "Beginner"⟩,
    ⟨"Data Analysis & Tools",
     "Master Excel, SQL, and operations analytics",
     "6-8 weeks", ["Excel Advanced", "SQL for Operations", "Tableau"],
     ["Operations Fundamentals"], "Intermediate"⟩,
    ⟨"Project Management",
     "Learn project management methodologies and tools",
     "4-6 weeks", ["PMI", "Agile/Scrum", "Microsoft Project"],
     ["Data Analysis"], "Intermediate"⟩,
    ⟨"Industry Applications",
     "Apply operations knowledge to specific industries",
     "4-6 weeks", ["Industry Case Studies", "Company Research", "Professional Networks"],
     ["Project Management"], "Advanced"⟩],
   ["Supply Chain", "Process Optimization", "Project Management", "Data Analysis", "Lean Six Sigma"]⟩

/-- The `mba_roadmaps` dict in insertion order. -/
def mbaRoadmaps : List (String × RoadmapData) :=
  [("consulting", mbaConsultingData),
   ("finance", mbaFinanceData),
   ("marketing_consultant", mbaMarketingConsultantData),
   ("operations", mbaOperationsData)]

/-- Association-list lookup mirroring Python dict indexing. -/
def dictLookup (m : List (String × RoadmapData)) (k : String) : Option RoadmapData :=
  (m.find? (fun p => p.1 == k)).map (·.2)

/-! ## Marketing consultant override (`marketing_consultant_roadmap.py`) -/

/-- One entry of the `"steps"` list of `get_detailed_roadmap`. -/
structure DetailedStep where
  timeframe : String
  focus_area : String
  actions : List String
  duration : String
  difficulty : String
deriving DecidableEq

/-- The `"steps"` list of `get_detailed_roadmap`. -/
def marketingDetailedSteps : List DetailedStep :=
  [⟨"Oct–Nov (Now)", "🔍 Refine Focus + Skills",
    ["Identify niche: brand, digital, analytics, strategy, etc.",
     "Take advanced electives (e.g. Strategic Marketing, Brand Management)",
     "Update CV & LinkedIn with marketing projects"],
    "2 months", "Beginner"⟩,
   ⟨"Nov–Dec", "🧠 Build Consulting Skills",
    ["Practice case interviews (marketing-specific cases)",
     "Use books like Case in Point, Crack the Marketing Case",
     "Join consulting clubs/mock interviews"],
    "2 months", "Intermediate"⟩,
   ⟨"Dec–Jan", "🛠️ Portfolio Building",
    ["Start a personal blog/LinkedIn posts on marketing trends",
     "Do a live project/freelance consulting for a startup/NGO",
     "Create a 1-page case study of your work"],
    "2 months", "Intermediate"⟩,
   ⟨"Jan–Feb", "💼 Apply for Roles",
    ["Target consulting firms with marketing verticals (e.g., Bain, McKinsey, ZS, Nielsen, boutique firms)",
     "Also apply to marketing strategy roles at MNCs/startups",
     "Prepare STAR stories for behavioral interviews"],
    "2 months", "Advanced"⟩,
   ⟨"Feb–Apr", "💬 Networking + Mentorship",
    ["Reach out to alumni in marketing/consulting on LinkedIn",
     "Set up informational interviews",
     "Ask for referrals or project shadowing"],
    "2 months", "Advanced"⟩,
   ⟨"Apr–Jun", "🚀 Final Push",
    ["Interview preparation continues",
     "Stay flexible (entry roles: analyst, associate, brand strategist)",
     "Finalize job/internship offers"],
    "2 months", "Advanced"⟩]

/-- The `"total_duration"` entry of `get_detailed_roadmap`. -/
def marketingDetailedTotalDuration : String := "8 months (Oct-Jun)"

/-- The `"key_skills"` dict of `get_detailed_roadmap`, in insertion
order (category name, skills). -/
def marketingKeySkills : List (String × List String) :=
  [("marketing_expertise", ["Branding", "Digital", "Customer Insights"]),
   ("consulting_tools", ["SWOT", "4Ps", "STP", "Customer Journey Mapping"]),
   ("data_savvy", ["Google Analytics", "Excel", "Tableau", "PowerPoint"]),
   ("soft_skills", ["Problem-solving", "Client communication", "Storytelling"])]

/-- Conversion of one detailed step in `get_roadmap_as_model`:
`title = f"{timeframe}: {focus_area}"`, the description is rebuilt from
the focus area and bulleted actions, `resources = actions`,
`prerequisites = []`. -/
def marketingStepToModel (sd : DetailedStep) : RoadmapStep :=
  ⟨sd.timeframe ++ ": " ++ sd.focus_area,
   "Focus: " ++ sd.focus_area ++ "\n\nActions:\n" ++
     String.intercalate "\n" (sd.actions.map (fun a => "• " ++ a)),
   sd.duration, sd.actions, [], sd.difficulty⟩

/-- `MarketingConsultantRoadmap.get_roadmap_as_model`. -/
def marketingGetRoadmapAsModel : Roadmap :=
  ⟨"mba", "marketing_consultant", marketingDetailedTotalDuration,
   marketingDetailedSteps.map marketingStepToModel,
   (marketingKeySkills.map (·.2)).flatten⟩

/-! ## Roadmap generator (`roadmap_generator.py`) -/

/-- `_generate_tech_roadmap`: use the catalog entry for the lowered
specialization when one is given (truthy) and known, else the
`frontend` entry; the `specialization` attribute is
`specialization or "frontend"`. -/
def generateTechRoadmap (specialization : Option String) : Roadmap :=
  let key := lowerStr (specialization.getD "")
  let roadmap_data :=
    if pyTruthy specialization ∧ (dictLookup techRoadmaps key).isSome then
      (dictLookup techRoadmaps key).getD techFrontendData
    else techFrontendData
  ⟨"tech", pyOrStr specialization "frontend",
   roadmap_data.total_duration, roadmap_data.steps, roadmap_data.skills_covered⟩

/-- `_generate_mba_roadmap`: a truthy specialization whose lowering is
exactly `"marketing"` returns the authored override roadmap; otherwise
the catalog entry for the lowered specialization when known, else the
`consulting` entry, with `specialization or "consulting"` as attribute. -/
def generateMbaRoadmap (specialization : Option String) : Roadmap :=
  let key := lowerStr (specialization.getD "")
  if pyTruthy specialization ∧ key = "marketing" then
    marketingGetRoadmapAsModel
  else
    let roadmap_data :=
      if pyTruthy specialization ∧ (dictLookup mbaRoadmaps key).isSome then
        (dictLookup mbaRoadmaps key).getD mbaConsultingData
      else mbaConsultingData
    ⟨"mba", pyOrStr specialization "consulting",
     roadmap_data.total_duration, roadmap_data.steps, roadmap_data.skills_covered⟩

/-- `_get_default_roadmap(field)`. -/
def getDefaultRoadmap (field : String) : Roadmap :=
  ⟨field, "general", "6-12 months",
   [⟨"Foundation Learning",
     "Build fundamental knowledge in your chosen field",
     "2-3 months", ["Online Courses", "Books", "Tutorials"], [], "Beginner"⟩,
    ⟨"Skill Development",
     "Develop specific skills relevant to your career goals",
     "2-3 months", ["Practice Projects", "Certifications", "Mentorship"],
     ["Foundation Learning"], "Intermediate"⟩,
    ⟨"Portfolio Building",
     "Create a portfolio showcasing your skills and projects",
     "1-2 months", ["Personal Projects", "Case Studies", "GitHub"],
     ["Skill Development"], "Intermediate"⟩,
    ⟨"Job Search & Networking",
     "Apply to positions and build professional network",
     "Ongoing", ["LinkedIn", "Job Boards", "Professional Events"],
     ["Portfolio Building"], "Advanced"⟩],
   ["Communication", "Problem Solving", "Technical Skills", "Industry Knowledge"]⟩

/-- `generate_roadmap(field, specialization)` with its `try`/`except`
folded in: an unsupported field raises `ValueError`, which the handler
turns into `_get_default_roadmap(field)`.  The tech and mba generators
are total, so the handler fires exactly for unsupported fields; the
caller never sees an exception. -/
def generateRoadmap (field : String) (specialization : Option String) : Roadmap :=
  if lowerStr field = "tech" then generateTechRoadmap specialization
  else if lowerStr field = "mba" then generateMbaRoadmap specialization
  else getDefaultRoadmap field

/-- The roadmap computed by `CareerGuidanceAgent.process_query`
(`career_agent.py` lines 37–40): `generate_roadmap(query.field.value,
query.specialization)`. -/
def processQueryRoadmap (q : CareerQuery) : Roadmap :=
  generateRoadmap q.field.value q.specialization

/-! ## Recommendation engine (`career_agent.py`, `_generate_recommendations`)

The body runs inside `try`/`except`.  With well-typed inputs the only
statement that can raise is the salary average
`sum(...) / len([c for c in market_data if c.average_salary])`, which is
reached whenever `market_data` is non-empty and raises `ZeroDivisionError`
exactly when no company has a truthy (present and non-zero) salary.  The
handler appends one generic fallback string to whatever was already in
`recommendations` and the function returns `recommendations[:10]`. -/

/-- Python truthiness of `c.average_salary` (`None` and `0.0` falsy). -/
def hasTruthySalary (c : CompanyData) : Bool :=
  c.average_salary.getD 0 != 0

/-- One high-impact trend line. -/
def trendLine (t : MarketTrend) : String :=
  "High Impact Trend: " ++ t.description ++ ". Consider focusing on skills related to this trend."

/-- The trend rule: one line per trend with impact `"High"`, in order. -/
def trendRecs (trends : List MarketTrend) : List String :=
  (trends.filter (fun t => t.impact == "High")).map trendLine

/-- The generic fallback appended by the `except` handler. -/
def fallbackRecommendation : String :=
  "Focus on building relevant skills and gaining practical experience."

/-- Round half to even (Python float formatting with `.0f`). -/
def roundHalfEvenQ (q : ℚ) : Int :=
  let f := q.floor
  let frac := q - f
  if frac < 1 / 2 then f
  else if 1 / 2 < frac then f + 1
  else if f % 2 = 0 then f else f + 1

/-- Comma-group a little-endian digit list in blocks of three. -/
def groupDigits : List Char → List Char
  | a :: b :: c :: d :: rest => a :: b :: c :: ',' :: groupDigits (d :: rest)
  | l => l

/-- Python `f"{x:,.0f}"`: round half to even, thousands separators. -/
def formatSalary (q : ℚ) : String :=
  let n := roundHalfEvenQ q
  let ds := (Nat.toDigits 10 n.natAbs).reverse
  let grouped := (groupDigits ds).reverse
  (if n < 0 then "-" else "") ++ String.mk grouped

/-- The mean over companies with a truthy salary (numerator and
denominator both range over exactly those companies). -/
def avgSalary (market_data : List CompanyData) : ℚ :=
  ((market_data.filter hasTruthySalary).map (fun c => c.average_salary.getD 0)).sum /
    (market_data.filter hasTruthySalary).length

/-- The salary benchmark line. -/
def salaryLine (avg : ℚ) : String :=
  "Average salary in your target companies: $" ++ formatSalary avg ++
    ". Use this as a benchmark for salary negotiations."

/-- The salary rule after the division succeeded: the line is appended
only when the computed average is truthy (`if avg_salary:`). -/
def salaryRecs (market_data : List CompanyData) : List String :=
  if avgSalary market_data ≠ 0 then [salaryLine (avgSalary market_data)] else []

/-- The hiring-status summary line. -/
def hiringLine (market_data : List CompanyData) : String :=
  toString (market_data.filter (fun c => c.hiring_status == "Active")).length ++
    " out of " ++ toString market_data.length ++
    " target companies are actively hiring. Focus your applications on these companies first."

/-- The hiring rule: a summary line when at least one company is
actively hiring. -/
def hiringRecs (market_data : List CompanyData) : List String :=
  if market_data.filter (fun c => c.hiring_status == "Active") ≠ [] then
    [hiringLine market_data]
  else []

/-- The `if market_data:` block (salary rule then hiring rule); only
evaluated on the non-raising path. -/
def companyRecs (market_data : List CompanyData) : List String :=
  if market_data ≠ [] then salaryRecs market_data ++ hiringRecs market_data else []

/-- The field-specific block: 4 fixed lines for `tech`; for `mba`,
9 marketing lines when the truthy specialization contains `marketing`
(lower-cased), else 10 consulting lines when it contains `consulting`,
else 4 generic lines. -/
def fieldRecs (q : CareerQuery) : List String :=
  if q.field.value = "tech" then
    ["Build a strong portfolio with real projects on GitHub",
     "Contribute to open source projects to gain experience",
     "Consider getting cloud certifications (AWS, Azure, GCP)",
     "Practice coding problems on platforms like LeetCode and HackerRank"]
  else if q.field.value = "mba" then
    if pyTruthy q.specialization ∧
        strContains (lowerStr (q.specialization.getD "")) "marketing" then
      ["Start case interview preparation immediately - don\u0027t wait until January",
       "Complete at least one live consulting project before applying to firms",
       "Build relationships with 2nd year MBA students who secured consulting offers",
       "Create thought leadership content on LinkedIn about marketing trends",
       "Target both MBB firms and specialized marketing consultancies like ZS Associates",
       "Practice 50+ case interviews focusing on marketing-specific scenarios",
       "Prepare 10+ STAR stories for behavioral interviews",
       "Attend all consulting firm presentations on campus",
       "Join both Marketing Club and Consulting Club for networking"]
    else if pyTruthy q.specialization ∧
        strContains (lowerStr (q.specialization.getD "")) "consulting" then
      ["Master MECE frameworks and structured problem-solving approaches",
       "Practice case interviews daily using Case in Point and PrepLounge",
       "Develop quick mental math skills - crucial for case interviews",
       "Read McKinsey Insights, Bain Insights, and BCG Perspectives daily",
       "Join consulting clubs and practice with peers regularly",
       "Build 10+ STAR stories for behavioral interviews",
       "Master Excel shortcuts and PowerPoint design skills",
       "Stay current on business news through The Economist and Morning Brew",
       "Practice explaining complex concepts in simple terms",
       "Network with alumni in consulting firms for referrals"]
    else
      ["Build strong analytical and problem-solving skills",
       "Practice case interviews extensively",
       "Develop industry-specific knowledge through research",
       "Build a professional network through LinkedIn and industry events"]
  else []

/-- The experience-level block: 3 lines for `fresh_graduate`, 3 lines
for `entry_level`, none otherwise. -/
def expRecs (q : CareerQuery) : List String :=
  if q.experience_level.value = "fresh_graduate" then
    ["Focus on building foundational skills and gaining practical experience",
     "Consider internships or entry-level positions to build your resume",
     "Join professional organizations and attend networking events"]
  else if q.experience_level.value = "entry_level" then
    ["Look for opportunities to take on more responsibility",
     "Seek mentorship from senior professionals",
     "Consider lateral moves to gain diverse experience"]
  else []

/-- The location rule: one line when a location preference is truthy. -/
def locRecs (q : CareerQuery) : List String :=
  if pyTruthy q.location_preference then
    ["Research the job market in " ++ q.location_preference.getD "" ++
      " and connect with local professionals in your field."]
  else []

/-- The list built by the `try` body plus `except` handler, before the
final slice.  The trend rule always runs first; then either the salary
division raises (non-empty `market_data`, no truthy salary) and the
handler appends the fallback, or every remaining rule runs in order. -/
def recommendationsRaw (q : CareerQuery) (market_data : List CompanyData)
    (market_trends : List MarketTrend) : List String :=
  trendRecs market_trends ++
    (if market_data ≠ [] ∧ market_data.filter hasTruthySalary = [] then
      [fallbackRecommendation]
    else
      companyRecs market_data ++ fieldRecs q ++ expRecs q ++ locRecs q)

/-- `_generate_recommendations`: the built list sliced to 10
(`recommendations[:10]`). -/
def generateRecommendations (q : CareerQuery) (market_data : List CompanyData)
    (market_trends : List MarketTrend) : List String :=
  (recommendationsRaw q market_data market_trends).take 10

/-! ## Market data provider (`web_scraper.py`, `get_company_data`)

The SQLAlchemy store is a list of `CompanyRecord` in insertion order;
`datetime.now()` / the column default `datetime.utcnow` are both the
single model time `now`.  The Glassdoor scrape always returns its mock
snapshot, so `company_data` is always truthy and the outer `except`
(store errors) never fires in the model. -/

/-- A row of the `company_data` table (`database.py`,
`CompanyDataDB`); `required_skills` is stored as JSON text, modelled as
the decoded list. -/
structure CompanyRecord where
  name : String
  hiring_status : String
  open_positions : Int
  average_salary : Option ℚ
  required_skills : List String
  company_size : String
  industry : String
  last_updated : Int
deriving DecidableEq

/-- `CompanyDataDB.name.ilike(f"%{company}%")`: the stored name
contains the query string, case-insensitively. -/
def companyMatches (r : CompanyRecord) (company : String) : Bool :=
  decide (strContains (lowerStr r.name) (lowerStr company))

/-- `.filter(...).first()`: the first matching row in table order. -/
def findCompany (store : List CompanyRecord) (company : String) : Option CompanyRecord :=
  store.find? (fun r => companyMatches r company)

/-- The `CompanyData` built from a stored row on a cache hit
(`json.loads` of `required_skills` is the identity in the model). -/
def recordToData (r : CompanyRecord) : CompanyData :=
  ⟨r.name, r.hiring_status, r.open_positions, r.average_salary,
   r.required_skills, r.company_size, r.industry, r.last_updated⟩

/-- `scrape_glassdoor_company_data`: always returns the mock snapshot
named after the query, stamped `datetime.now()`. -/
def scrapeGlassdoorCompanyData (company : String) (now : Int) : CompanyData :=
  ⟨company, "Active", 50, some 100000, ["Python", "JavaScript", "SQL"],
   "Large", "Technology", now⟩

/-- In-place refresh of a stale row: `get_company_data` overwrites
`hiring_status`, `open_positions`, `average_salary`, `required_skills`
and `last_updated` of the matched row, leaving `name`, `company_size`
and `industry` untouched. -/
def refreshRecord (r : CompanyRecord) (fresh : CompanyData) (now : Int) : CompanyRecord :=
  ⟨r.name, fresh.hiring_status, fresh.open_positions, fresh.average_salary,
   fresh.required_skills, r.company_size, r.industry, now⟩

/-- Apply `refreshRecord` to the first row matching `company`. -/
def updateFirstMatch (store : List CompanyRecord) (company : String)
    (fresh : CompanyData) (now : Int) : List CompanyRecord :=
  match store with
  | [] => []
  | r :: rest =>
    if companyMatches r company then refreshRecord r fresh now :: rest
    else r :: updateFirstMatch rest company fresh now

/-- The new row inserted when no row matched (`CompanyDataDB(...)` with
`last_updated` left to its column default, i.e. the current time). -/
def freshRecord (fresh : CompanyData) (now : Int) : CompanyRecord :=
  ⟨fresh.name, fresh.hiring_status, fresh.open_positions, fresh.average_salary,
   fresh.required_skills, fresh.company_size, fresh.industry, now⟩

/-- `get_company_data(company)` over the modelled store: returns the
stored row unchanged when the first case-insensitive substring match is
younger than 7 days; otherwise scrapes the mock snapshot and upserts it
(refresh the matched row in place, or append a new row). -/
def getCompanyData (store : List CompanyRecord) (now : Int) (company : String) :
    Option CompanyData × List CompanyRecord :=
  match findCompany store company with
  | some r =>
    if daysBetween now r.last_updated < 7 then
      (some (recordToData r), store)
    else
      let fresh := scrapeGlassdoorCompanyData company now
      (some fresh, updateFirstMatch store company fresh now)
  | none =>
    let fresh := scrapeGlassdoorCompanyData company now
    (some fresh, store ++ [freshRecord fresh now])

/-! ## Helper lemmas for the store -/

set_option maxRecDepth 8000

/-- `updateFirstMatch` never changes the stored names. -/
theorem updateFirstMatch_map_name (store : List CompanyRecord) (company : String)
    (fresh : CompanyData) (now : Int) :
    (updateFirstMatch store company fresh now).map CompanyRecord.name =
      store.map CompanyRecord.name := by
  induction store with
  | nil => rfl
  | cons r rest ih =>
    unfold updateFirstMatch
    by_cases h : companyMatches r company
    · simp [h, refreshRecord]
    · simp [h, ih]

/-- A refreshed row matches the same query strings as the original. -/
theorem companyMatches_refreshRecord (r : CompanyRecord) (fresh : CompanyData)
    (now : Int) (company : String) :
    companyMatches (refreshRecord r fresh now) company = companyMatches r company := rfl

/-- After an in-place refresh, the first matching row is the refreshed
version of the previously first matching row. -/
theorem findCompany_updateFirstMatch (store : List CompanyRecord) (company : String)
    (fresh : CompanyData) (now : Int) (r : CompanyRecord)
    (h : findCompany store company = some r) :
    findCompany (updateFirstMatch store company fresh now) company =
      some (refreshRecord r fresh now) := by
  induction store with
  | nil => simp [findCompany] at h
  | cons a rest ih =>
    by_cases ha : companyMatches a company
    · have hr : a = r := by
        simpa [findCompany, List.find?, ha] using h
      subst hr
      simp [updateFirstMatch, ha, findCompany, List.find?,
        companyMatches_refreshRecord, ha]
    · have h' : findCompany rest company = some r := by
        simpa [findCompany, List.find?, ha] using h
      have := ih h'
      simpa [updateFirstMatch, ha, findCompany, List.find?] using this

/-- Appending a matching row to a store with no match makes it the
first match. -/
theorem findCompany_append_single (store : List CompanyRecord) (company : String)
    (x : CompanyRecord) (h : findCompany store company = none)
    (hx : companyMatches x company = true) :
    findCompany (store ++ [x]) company = some x := by
  induction store with
  | nil => simp [findCompany, List.find?, hx]
  | cons a rest ih =>
    have ha : companyMatches a company = false := by
      by_contra hc
      simp [findCompany, List.find?, Bool.of_not_eq_false hc] at h
    have h' : findCompany rest company = none := by
      simpa [findCompany, List.find?, ha] using h
    simpa [findCompany, List.find?, ha] using ih h'

/-- The freshly inserted row matches its own query string. -/
theorem companyMatches_freshRecord (company : String) (now : Int) :
    companyMatches (freshRecord (scrapeGlassdoorCompanyData company now) now) company = true := by
  unfold companyMatches freshRecord scrapeGlassdoorCompanyData
  exact decide_eq_true (List.infix_refl _)

/-! ## Claims -/

/-- Claim C1: for every query, company-snapshot list and trend list, the
recommendation list returned by `_generate_recommendations` has length
at most 10, however many High-impact trends are supplied. -/
theorem generate_recommendations_length_le_ten (q : CareerQuery)
    (market_data : List CompanyData) (market_trends : List MarketTrend) :
    (generateRecommendations q market_data market_trends).length ≤ 10 := by
  simp only [generateRecommendations, List.length_take]
  omega

/-- Claim C2 (code bug): on a non-empty company list in which no company
has a truthy average salary, the salary-average statement divides by
zero; the exception handler then appends the generic fallback and every
later rule block is skipped, so the result is just the fallback line —
although the field block for this tech query is non-empty and the claim
expects generation to proceed normally with no salary line. -/
theorem generate_recommendations_zero_division_fallback :
    generateRecommendations
        ⟨.tech, none, .fresh_graduate, none, none, none, none, "Which skills should I focus on?"⟩
        [⟨"Acme", "Paused", 0, none, [], "Small", "Tech", 0⟩] [] =
      [fallbackRecommendation] ∧
    fieldRecs ⟨.tech, none, .fresh_graduate, none, none, none, none, "Which skills should I focus on?"⟩ ≠ [] ∧
    expRecs ⟨.tech, none, .fresh_graduate, none, none, none, none, "Which skills should I focus on?"⟩ ≠ [] :=
  ⟨rfl, by decide, by decide⟩

/-- Claim C3 (counterexample): when the salary step fails after one
High-impact trend line was already produced, the result keeps that
partial line and appends the fallback — it is not the single fallback
string the claim demands. -/
theorem generate_recommendations_partial_kept_counterexample :
    generateRecommendations
        ⟨.tech, none, .mid_level, none, none, none, none, "What should I do?"⟩
        [⟨"Acme", "Paused", 0, none, [], "Small", "Tech", 0⟩] [aiTrend] =
      [trendLine aiTrend, fallbackRecommendation] ∧
    generateRecommendations
        ⟨.tech, none, .mid_level, none, none, none, none, "What should I do?"⟩
        [⟨"Acme", "Paused", 0, none, [], "Small", "Tech", 0⟩] [aiTrend] ≠
      [fallbackRecommendation] :=
  ⟨rfl, by decide⟩

/-- Claim C3 (amended): on every input where the generation body raises
(non-empty company list, no truthy salary), the generic fallback string
is appended after the partial recommendations computed before the
failure (the trend lines) and the combined list is truncated to 10;
partial results are retained, not discarded. -/
theorem generate_recommendations_error_appends_fallback (q : CareerQuery)
    (market_data : List CompanyData) (market_trends : List MarketTrend)
    (h : market_data ≠ [] ∧ market_data.filter hasTruthySalary = []) :
    generateRecommendations q market_data market_trends =
      (trendRecs market_trends ++ [fallbackRecommendation]).take 10 := by
  unfold generateRecommendations recommendationsRaw
  rw [if_pos h]

/-- Witness for the amended C3 theorem at a concrete failing input. -/
theorem generate_recommendations_error_appends_fallback_witness :
    (([⟨"Acme", "Paused", 0, none, [], "Small", "Tech", 0⟩] : List CompanyData) ≠ [] ∧
      ([⟨"Acme", "Paused", 0, none, [], "Small", "Tech", 0⟩] : List CompanyData).filter hasTruthySalary = []) ∧
    generateRecommendations
        ⟨.tech, none, .mid_level, none, none, none, none, "What should I do?"⟩
        [⟨"Acme", "Paused", 0, none, [], "Small", "Tech", 0⟩] [aiTrend] =
      (trendRecs [aiTrend] ++ [fallbackRecommendation]).take 10 :=
  ⟨⟨by decide, by decide⟩,
   generate_recommendations_error_appends_fallback _ _ _ ⟨by decide, by decide⟩⟩

/-- Claim C4 (counterexample): a query with field `mba` and
specialization `"marketing consultant"` does not get the marketing
override roadmap: the override fires only when the lowered
specialization is exactly `"marketing"`. -/
theorem marketing_consultant_query_not_override :
    processQueryRoadmap
        ⟨.mba, some "marketing consultant", .fresh_graduate, some ["ZS Associates"],
         none, none, none, "How do I become a marketing consultant?"⟩ ≠
      marketingGetRoadmapAsModel := by
  decide

/-- Claim C4 (amended): a query with field `mba` and specialization
`"marketing consultant"` yields the generic `consulting` catalog content
tagged with the original specialization string, not the marketing
override (which requires the specialization to lower-case to exactly
`"marketing"`). -/
theorem marketing_consultant_query_resolves_consulting :
    processQueryRoadmap
        ⟨.mba, some "marketing consultant", .fresh_graduate, some ["ZS Associates"],
         none, none, none, "How do I become a marketing consultant?"⟩ =
      ⟨"mba", "marketing consultant", mbaConsultingData.total_duration,
       mbaConsultingData.steps, mbaConsultingData.skills_covered⟩ := rfl

/-- Claim C5: every casing of the specialization `"marketing"` under
field `mba` returns the authored 6-phase override roadmap (not the
generic catalog content), whose first step title contains `Oct` and
`Refine Focus`. -/
theorem mba_marketing_any_case_returns_override (s : String)
    (h : lowerStr s = "marketing") :
    generateRoadmap "mba" (some s) = marketingGetRoadmapAsModel ∧
    marketingGetRoadmapAsModel.steps.length = 6 ∧
    (∃ st rest, marketingGetRoadmapAsModel.steps = st :: rest ∧
      strContains st.title "Oct" ∧ strContains st.title "Refine Focus") ∧
    marketingGetRoadmapAsModel.steps ≠ mbaConsultingData.steps ∧
    marketingGetRoadmapAsModel.steps ≠ mbaMarketingConsultantData.steps := by
  have hne : s ≠ "" := by
    intro he
    rw [he] at h
    exact absurd h (by decide)
  refine ⟨?_, rfl, ⟨_, _, rfl, by decide, by decide⟩, by decide, by decide⟩
  show generateMbaRoadmap (some s) = marketingGetRoadmapAsModel
  unfold generateMbaRoadmap
  rw [if_pos ⟨hne, h⟩]

/-- Witness for C5 at a mixed-case specialization. -/
theorem mba_marketing_any_case_returns_override_witness :
    lowerStr "MaRkEtInG" = "marketing" ∧
    generateRoadmap "mba" (some "MaRkEtInG") = marketingGetRoadmapAsModel :=
  ⟨by decide, (mba_marketing_any_case_returns_override "MaRkEtInG" (by decide)).1⟩

/-- Claim C6: any field string that lowers to neither `tech` nor `mba`
makes `generate_roadmap` return (not raise) the generic 4-step fallback
roadmap — foundation, skill development, portfolio, job search — whose
`field` attribute is the original string. -/
theorem unsupported_field_returns_default_roadmap (field : String)
    (specialization : Option String)
    (h1 : lowerStr field ≠ "tech") (h2 : lowerStr field ≠ "mba") :
    generateRoadmap field specialization = getDefaultRoadmap field ∧
    (getDefaultRoadmap field).steps.length = 4 ∧
    (getDefaultRoadmap field).field = field ∧
    (getDefaultRoadmap field).steps.map RoadmapStep.title =
      ["Foundation Learning", "Skill Development", "Portfolio Building",
       "Job Search & Networking"] := by
  refine ⟨?_, rfl, rfl, rfl⟩
  unfold generateRoadmap
  rw [if_neg h1, if_neg h2]

/-- Witness for C6 at field `"quantum"`. -/
theorem unsupported_field_returns_default_roadmap_witness :
    lowerStr "quantum" ≠ "tech" ∧ lowerStr "quantum" ≠ "mba" ∧
    generateRoadmap "quantum" none = getDefaultRoadmap "quantum" :=
  ⟨by decide, by decide,
   (unsupported_field_returns_default_roadmap "quantum" none (by decide) (by decide)).1⟩

/-- Claim C7 (counterexample): for field `tech` with the unknown
specialization `"quantum"`, the returned roadmap carries the frontend
catalog content but its `specialization` attribute is the original
string `"quantum"`, not `"frontend"` as the claim states. -/
theorem tech_unknown_specialization_attribute_counterexample :
    (generateRoadmap "tech" (some "quantum")).steps = techFrontendData.steps ∧
    (generateRoadmap "tech" (some "quantum")).specialization = "quantum" ∧
    "quantum" ≠ "frontend" :=
  ⟨rfl, rfl, by decide⟩

/-- Claim C7 (amended): an absent or unknown specialization resolves to
the per-field default content — the `frontend` entry for `tech` and the
`consulting` entry for `mba` — while the `specialization` attribute is
`specialization or <default>`: the default name only when the
specialization is absent or empty, otherwise the original string. -/
theorem default_specialization_content_resolution :
    (∀ s : Option String,
      ¬(pyTruthy s ∧ (dictLookup techRoadmaps (lowerStr (s.getD ""))).isSome = true) →
      generateRoadmap "tech" s =
        ⟨"tech", pyOrStr s "frontend", techFrontendData.total_duration,
         techFrontendData.steps, techFrontendData.skills_covered⟩) ∧
    (∀ s : Option String,
      ¬(pyTruthy s ∧ lowerStr (s.getD "") = "marketing") →
      ¬(pyTruthy s ∧ (dictLookup mbaRoadmaps (lowerStr (s.getD ""))).isSome = true) →
      generateRoadmap "mba" s =
        ⟨"mba", pyOrStr s "consulting", mbaConsultingData.total_duration,
         mbaConsultingData.steps, mbaConsultingData.skills_covered⟩) := by
  constructor
  · intro s hs
    show generateTechRoadmap s = _
    unfold generateTechRoadmap
    simp only [if_neg hs]
  · intro s hm hs
    show generateMbaRoadmap s = _
    unfold generateMbaRoadmap
    simp only [if_neg hm, if_neg hs]

/-- Witness for the amended C7 at absent and unknown specializations. -/
theorem default_specialization_content_resolution_witness :
    ¬(pyTruthy (none : Option String) ∧
      (dictLookup techRoadmaps (lowerStr ((none : Option String).getD ""))).isSome = true) ∧
    generateRoadmap "tech" none =
      ⟨"tech", pyOrStr none "frontend", techFrontendData.total_duration,
       techFrontendData.steps, techFrontendData.skills_covered⟩ ∧
    ¬(pyTruthy (some "quantum") ∧ lowerStr ((some "quantum").getD "") = "marketing") ∧
    ¬(pyTruthy (some "quantum") ∧
      (dictLookup mbaRoadmaps (lowerStr ((some "quantum").getD ""))).isSome = true) ∧
    generateRoadmap "mba" (some "quantum") =
      ⟨"mba", pyOrStr (some "quantum") "consulting", mbaConsultingData.total_duration,
       mbaConsultingData.steps, mbaConsultingData.skills_covered⟩ :=
  ⟨by decide,
   default_specialization_content_resolution.1 none (by decide),
   by decide, by decide,
   default_specialization_content_resolution.2 (some "quantum") (by decide) (by decide)⟩

/-- Claim C8 (counterexample): two unknown roles that normalize to the
same key still produce different records, because the default record
embeds the original role string. -/
theorem role_skills_unknown_role_record_differs :
    normalizeRole "Foo Bar" = normalizeRole "foo-bar" ∧
    getRoleSkills "Foo Bar" ≠ getRoleSkills "foo-bar" :=
  ⟨by decide, by decide⟩

/-- Claim C8 (amended): roles equal after normalization (lower-case,
spaces and hyphens to underscore) resolve to records that agree on
every attribute except possibly the embedded `role` string — in
particular the essential-skills set — and the three Data Scientist
spellings return the very same catalog record. -/
theorem role_skills_normalization_agreement :
    (∀ r1 r2 : String, normalizeRole r1 = normalizeRole r2 →
      (getRoleSkills r1).essential_skills = (getRoleSkills r2).essential_skills ∧
      (getRoleSkills r1).nice_to_have_skills = (getRoleSkills r2).nice_to_have_skills ∧
      (getRoleSkills r1).experience_required = (getRoleSkills r2).experience_required ∧
      (getRoleSkills r1).certifications = (getRoleSkills r2).certifications) ∧
    getRoleSkills "Data Scientist" = getRoleSkills "data_scientist" ∧
    getRoleSkills "data_scientist" = getRoleSkills "DATA-SCIENTIST" := by
  refine ⟨?_, by decide, by decide⟩
  intro r1 r2 h
  unfold getRoleSkills
  rw [h]
  cases resolveRoleKey (normalizeRole r2) <;> exact ⟨rfl, rfl, rfl, rfl⟩

/-- Witness for the amended C8 general part. -/
theorem role_skills_normalization_agreement_witness :
    normalizeRole "Data Scientist" = normalizeRole "DATA SCIENTIST" ∧
    (getRoleSkills "Data Scientist").essential_skills =
      (getRoleSkills "DATA SCIENTIST").essential_skills :=
  ⟨by decide,
   (role_skills_normalization_agreement.1 "Data Scientist" "DATA SCIENTIST" (by decide)).1⟩

/-- Claim C9: `get_company_data` returns a fresh-enough stored match
unchanged (so a second call within 7 days sees the identical
`last_updated`), refreshes a stale match in place (names untouched), and
inserts a new row when nothing matches. -/
theorem get_company_data_cache_spec :
    (∀ (store : List CompanyRecord) (now : Int) (company : String) (r : CompanyRecord),
      findCompany store company = some r →
      daysBetween now r.last_updated < 7 →
      getCompanyData store now company = (some (recordToData r), store)) ∧
    (∀ (store : List CompanyRecord) (now : Int) (company : String) (r : CompanyRecord),
      findCompany store company = some r →
      ¬ daysBetween now r.last_updated < 7 →
      getCompanyData store now company =
        (some (scrapeGlassdoorCompanyData company now),
         updateFirstMatch store company (scrapeGlassdoorCompanyData company now) now) ∧
      (updateFirstMatch store company (scrapeGlassdoorCompanyData company now) now).map
          CompanyRecord.name = store.map CompanyRecord.name) ∧
    (∀ (store : List CompanyRecord) (now : Int) (company : String),
      findCompany store company = none →
      getCompanyData store now company =
        (some (scrapeGlassdoorCompanyData company now),
         store ++ [freshRecord (scrapeGlassdoorCompanyData company now) now])) ∧
    (∀ (store : List CompanyRecord) (t1 t2 : Int) (company : String)
        (d : CompanyData) (st1 : List CompanyRecord),
      getCompanyData store t1 company = (some d, st1) →
      daysBetween t2 d.last_updated < 7 →
      ∃ d2, (getCompanyData st1 t2 company).1 = some d2 ∧
        d2.last_updated = d.last_updated) := by
  refine ⟨?_, ?_, ?_, ?_⟩
  · intro store now company r hf hfresh
    simp only [getCompanyData, hf, if_pos hfresh]
  · intro store now company r hf hstale
    refine ⟨?_, updateFirstMatch_map_name store company _ now⟩
    simp only [getCompanyData, hf, if_neg hstale]
  · intro store now company hf
    simp only [getCompanyData, hf]
  · intro store t1 t2 company d st1 h1 h2
    cases hf : findCompany store company with
    | some r =>
      simp only [getCompanyData, hf] at h1
      by_cases hfresh : daysBetween t1 r.last_updated < 7
      · rw [if_pos hfresh] at h1
        injection h1 with h1a h1b
        injection h1a with h1a
        subst h1a; subst h1b
        refine ⟨recordToData r, ?_, rfl⟩
        have h2' : daysBetween t2 r.last_updated < 7 := h2
        simp only [getCompanyData, hf, if_pos h2']
      · rw [if_neg hfresh] at h1
        injection h1 with h1a h1b
        injection h1a with h1a
        subst h1a; subst h1b
        have hfind := findCompany_updateFirstMatch store company
          (scrapeGlassdoorCompanyData company t1) t1 r hf
        have hlu : (refreshRecord r (scrapeGlassdoorCompanyData company t1) t1).last_updated =
            (scrapeGlassdoorCompanyData company t1).last_updated := rfl
        have h2' : daysBetween t2
            (refreshRecord r (scrapeGlassdoorCompanyData company t1) t1).last_updated < 7 := by
          rw [hlu]; exact h2
        refine ⟨recordToData (refreshRecord r (scrapeGlassdoorCompanyData company t1) t1), ?_, rfl⟩
        simp only [getCompanyData, hfind, if_pos h2']
    | none =>
      simp only [getCompanyData, hf] at h1
      injection h1 with h1a h1b
      injection h1a with h1a
      subst h1a; subst h1b
      have hfind := findCompany_append_single store company
        (freshRecord (scrapeGlassdoorCompanyData company t1) t1) hf
        (companyMatches_freshRecord company t1)
      have h2' : daysBetween t2
          (freshRecord (scrapeGlassdoorCompanyData company t1) t1).last_updated < 7 := h2
      refine ⟨recordToData (freshRecord (scrapeGlassdoorCompanyData company t1) t1), ?_, rfl⟩
      simp only [getCompanyData, hfind, if_pos h2']

/-- Witness for C9: a store with one 3-day-old Google row, queried at
day 3 — cache hit returning the stored row unchanged. -/
theorem get_company_data_cache_spec_witness :
    findCompany [⟨"Google", "Active", 150, some 120000, ["Python", "Machine Learning", "Cloud Computing"],
        "Large", "Technology", 0⟩] "Google" =
      some ⟨"Google", "Active", 150, some 120000, ["Python", "Machine Learning", "Cloud Computing"],
        "Large", "Technology", 0⟩ ∧
    daysBetween 259200 (0 : Int) < 7 ∧
    getCompanyData [⟨"Google", "Active", 150, some 120000, ["Python", "Machine Learning", "Cloud Computing"],
        "Large", "Technology", 0⟩] 259200 "Google" =
      (some (recordToData ⟨"Google", "Active", 150, some 120000,
          ["Python", "Machine Learning", "Cloud Computing"], "Large", "Technology", 0⟩),
       [⟨"Google", "Active", 150, some 120000, ["Python", "Machine Learning", "Cloud Computing"],
        "Large", "Technology", 0⟩]) :=
  ⟨by decide, by decide,
   get_company_data_cache_spec.1 _ 259200 "Google" _ (by decide) (by decide)⟩

/-- Claim C10: `scrape_market_trends` ignores arguments and state and
always returns the same fixed list of 4 trends, exactly 2 of which have
impact `High`; consequently, for every query and company list in the
end-to-end flow, the trend rule contributes exactly the 2 leading
high-impact lines of the recommendation list. -/
theorem scrape_market_trends_static_high_impact :
    scrapeMarketTrends.length = 4 ∧
    (scrapeMarketTrends.filter (fun t => t.impact == "High")).length = 2 ∧
    trendRecs scrapeMarketTrends = [trendLine aiTrend, trendLine cyberTrend] ∧
    ∀ (q : CareerQuery) (market_data : List CompanyData), ∃ rest,
      generateRecommendations q market_data scrapeMarketTrends =
        trendLine aiTrend :: trendLine cyberTrend :: rest := by
  refine ⟨rfl, rfl, rfl, ?_⟩
  intro q market_data
  exact ⟨_, rfl⟩
